import Mathlib

/-!
Verification of `CMeshBoundVariable` (SU2, `src/SU2_CFD/include/variables/
CMeshBoundVariable.hpp`): per-boundary-vertex mesh-movement state with a
compacting vertex map, dual mode-shape tensors, blade membership, and an
adjoint read-back bridge.

The class methods in the header are embedded directly.  Collaborator code that
the header uses but that is not part of the provided sources (the container
classes, `CVertexMap`, the constructor and `AllocateBoundaryVariables` from the
`.cpp`, and the AD scalar type) is modelled from the specification, with each
such definition marked `Modelled from the spec:` in its doc comment.
-/

namespace SU2

/-- Model of `su2double` in a reverse-mode algorithmic-differentiation build:
a primal value together with the derivative accumulated against it by the
external tape.  Assignment copies the whole AD value. -/
@[ext] structure su2double where
  val : ℚ
  deriv : ℚ
deriving DecidableEq

/-- The zero AD value, the neutral default returned by guarded getters. -/
def su2double.zero : su2double := ⟨0, 0⟩

/-- Conversion of a passive integer value to `su2double` (derivative 0),
as happens when `GetBound_BladeID` returns an `unsigned short` as `su2double`. -/
def su2double.ofNat (n : Nat) : su2double := ⟨(n : ℚ), 0⟩

/-- Model of `SU2_TYPE::GetDerivative`: read the accumulated derivative of an
AD value. -/
def SU2_TYPE.GetDerivative (x : su2double) : ℚ := x.deriv

/-- Modelled from the spec: class `CVertexMap`
(`Common/include/containers/CVertexMap.hpp`), which is not among the provided
sources; only its use sites in `CMeshBoundVariable.hpp` are.  Per spec sections
4.1 and 9 it is a sparse flag array sized `nPoint`; compaction (`Build`)
assigns compact indices `0..k-1` to the flagged points in ascending order of
point identifier, so the compact index of a flagged point `p` is the number of
flagged points strictly below `p`.  `GetVertexIndex` is modelled in its
post-`Build` form, the only form the spec gives semantics for. -/
@[ext] structure CVertexMap where
  nPoint : Nat
  flag : Nat → Bool

/-- Modelled from the spec: a fresh vertex map over `n` points, nothing
flagged. -/
def CVertexMap.reset (n : Nat) : CVertexMap := ⟨n, fun _ => false⟩

/-- Modelled from the spec: `SetIsVertex(point, flag)`; last write wins.
Point identifiers live in `[0, nPoint)` (spec section 3). -/
def CVertexMap.SetIsVertex (vm : CVertexMap) (p : Nat) (b : Bool) : CVertexMap :=
  if p < vm.nPoint then
    { vm with flag := fun q => if q = p then b else vm.flag q }
  else vm

/-- Modelled from the spec: `GetIsVertex(point)`, a pure flag lookup. -/
def CVertexMap.GetIsVertex (vm : CVertexMap) (p : Nat) : Bool := vm.flag p

/-- The set of flagged points with identifier strictly below `p`. -/
def CVertexMap.flaggedBelow (vm : CVertexMap) (p : Nat) : Finset Nat :=
  (Finset.range p).filter (fun q => vm.flag q = true)

/-- Modelled from the spec: the compact index `Build` assigns to a flagged
point, namely its rank among the flagged points in ascending order of point
identifier. -/
def CVertexMap.vertexIndex (vm : CVertexMap) (p : Nat) : Nat :=
  (vm.flaggedBelow p).card

/-- Modelled from the spec: `Build()` compacts the flagged points and
records/returns their number `k`. -/
def CVertexMap.Build (vm : CVertexMap) : Nat :=
  (vm.flaggedBelow vm.nPoint).card

/-- Modelled from the spec: `GetVertexIndex(point)` yields the compact index
of a flagged point and nothing for an unflagged one.  In the C++ code the
point identifier is passed by reference and replaced by the compact index;
here the compact index is returned through the `Option`. -/
def CVertexMap.GetVertexIndex (vm : CVertexMap) (p : Nat) : Option Nat :=
  if vm.flag p then some (vm.vertexIndex p) else none

/-- Model of `MatrixType` (`su2activematrix`): a dense 2D container of
`su2double` with its extents.  Content is kept as a total function;
out-of-range accesses are outside the component's contract (spec section
4.2). -/
structure MatrixType where
  rows : Nat
  cols : Nat
  data : Nat → Nat → su2double

/-- A default-constructed (empty) matrix. -/
def MatrixType.empty : MatrixType := ⟨0, 0, fun _ _ => su2double.zero⟩

/-- Model of `resize(rows, cols) = value`: fresh extents, every entry set to
`value` (the container does not preserve old contents). -/
def MatrixType.resizeFill (_m : MatrixType) (r c : Nat) (v : su2double) :
    MatrixType :=
  ⟨r, c, fun _ _ => v⟩

/-- Element read `m(i, j)`. -/
def MatrixType.get (m : MatrixType) (i j : Nat) : su2double := m.data i j

/-- Element write `m(i, j) = v`. -/
def MatrixType.set (m : MatrixType) (i j : Nat) (v : su2double) : MatrixType :=
  { m with data := fun i' j' => if i' = i ∧ j' = j then v else m.data i' j' }

/-- Model of `C3DDoubleMatrix`: a rank-3 container of `su2double`; its first
extent is what the container's `length()` accessor reports, the middle and
inner extents are `rows()` and `cols()`. -/
structure C3DDoubleMatrix where
  length : Nat
  rows : Nat
  cols : Nat
  data : Nat → Nat → Nat → su2double

/-- A default-constructed (empty) rank-3 container, `length() = 0`. -/
def C3DDoubleMatrix.empty : C3DDoubleMatrix :=
  ⟨0, 0, 0, fun _ _ _ => su2double.zero⟩

/-- Model of `resize(l, r, c, v)`: fresh extents, every entry set to `v`. -/
def C3DDoubleMatrix.resize (_m : C3DDoubleMatrix) (l r c : Nat)
    (v : su2double) : C3DDoubleMatrix :=
  ⟨l, r, c, fun _ _ _ => v⟩

/-- Element read `m(i, j, k)`. -/
def C3DDoubleMatrix.get (m : C3DDoubleMatrix) (i j k : Nat) : su2double :=
  m.data i j k

/-- Element write `m(i, j, k) = v`. -/
def C3DDoubleMatrix.set (m : C3DDoubleMatrix) (i j k : Nat) (v : su2double) :
    C3DDoubleMatrix :=
  { m with data := fun i' j' k' =>
      if i' = i ∧ j' = j ∧ k' = k then v else m.data i' j' k' }

/-- Model of `su2vector<unsigned short>` used for `Boundary_BladeID`. -/
structure su2vectorUS where
  size : Nat
  data : Nat → Nat

/-- A default-constructed (empty) vector. -/
def su2vectorUS.empty : su2vectorUS := ⟨0, fun _ => 0⟩

/-- The state of a `CMeshBoundVariable` object.  `nDim` and `nVar` are
inherited from `CMeshVariable`/`CVariable` (not among the provided sources);
per the spec the per-point mesh state is `nDim`-dimensional, so the
constructor sets `nVar = nDim`.  All dense containers are indexed by the
compact boundary-vertex index produced by `VertexMap`. -/
@[ext] structure CMeshBoundVariable where
  nPoint : Nat
  nDim : Nat
  nVar : Nat
  VertexMap : CVertexMap
  Boundary_Displacement : MatrixType
  Boundary_Velocity : MatrixType
  Boundary_ModeShape : C3DDoubleMatrix
  Boundary_ModeShape_TWM : C3DDoubleMatrix
  Boundary_BladeID : su2vectorUS
  nMode : Nat
  nBlade : Nat

/-- Modelled from the spec: the constructor
`CMeshBoundVariable(npoint, ndim, config)` is defined in
`CMeshBoundVariable.cpp`, which is not among the provided sources.  It sets up
an `ndim`-dimensional variable set (`nVar = nDim = ndim`), a fresh vertex map
over `npoint` points, and default (empty) boundary containers; `nMode` and
`nBlade` start at 0 as in the header's initializers. -/
def CMeshBoundVariable.construct (npoint ndim : Nat) : CMeshBoundVariable where
  nPoint := npoint
  nDim := ndim
  nVar := ndim
  VertexMap := CVertexMap.reset npoint
  Boundary_Displacement := MatrixType.empty
  Boundary_Velocity := MatrixType.empty
  Boundary_ModeShape := C3DDoubleMatrix.empty
  Boundary_ModeShape_TWM := C3DDoubleMatrix.empty
  Boundary_BladeID := su2vectorUS.empty
  nMode := 0
  nBlade := 0

/-- Modelled from the spec: `AllocateBoundaryVariables` is declared in the
header but defined in `CMeshBoundVariable.cpp`, not among the provided
sources.  Per spec sections 2 and 3 it runs index compaction (`Build`) and
allocates the per-boundary-vertex containers to the compacted count,
zero-filled.  The first extent of both mode-shape tensors is sized to the
compacted count here: spec section 4.2 distinguishes initializing the mode
shapes after compaction (which uses the compacted count) from before
compaction (zero-sized), and `Initialize_ModeshapeMatrix` in the header reads
that count back from `Boundary_ModeShape.length()`, so the length must be
established at compaction time. -/
def CMeshBoundVariable.AllocateBoundaryVariables (v : CMeshBoundVariable) :
    CMeshBoundVariable :=
  let nBoundPt := v.VertexMap.Build
  { v with
    Boundary_Displacement :=
      v.Boundary_Displacement.resizeFill nBoundPt v.nDim su2double.zero
    Boundary_Velocity :=
      v.Boundary_Velocity.resizeFill nBoundPt v.nDim su2double.zero
    Boundary_ModeShape :=
      v.Boundary_ModeShape.resize nBoundPt v.nMode v.nDim su2double.zero
    Boundary_ModeShape_TWM :=
      v.Boundary_ModeShape_TWM.resize nBoundPt v.nMode v.nDim su2double.zero
    Boundary_BladeID := ⟨nBoundPt, fun _ => 0⟩ }

/-- `GetBound_Disp` (header lines 73-76).  `GetVertexIndex` replaces the point
identifier by the compact index, which then indexes the dense matrix. -/
def CMeshBoundVariable.GetBound_Disp (v : CMeshBoundVariable)
    (iPoint iDim : Nat) : su2double :=
  match v.VertexMap.GetVertexIndex iPoint with
  | none => su2double.zero
  | some idx => v.Boundary_Displacement.get idx iDim

/-- `SetBound_Disp(iPoint, val_BoundDisp*)` (header lines 82-85), the pointer
overload: the loop `for iDim < nDim` copies `val_BoundDisp[iDim]` into row
`idx` of the matrix; written here as the pointwise result of that loop. -/
def CMeshBoundVariable.SetBound_Disp_vec (v : CMeshBoundVariable)
    (iPoint : Nat) (val_BoundDisp : List su2double) : CMeshBoundVariable :=
  match v.VertexMap.GetVertexIndex iPoint with
  | none => v
  | some idx =>
    { v with Boundary_Displacement :=
      { v.Boundary_Displacement with data := fun i j =>
          if i = idx ∧ j < v.nDim then val_BoundDisp.getD j su2double.zero
          else v.Boundary_Displacement.data i j } }

/-- `SetBound_Disp(iPoint, iDim, val_BoundDisp)` (header lines 92-95), the
single-entry overload. -/
def CMeshBoundVariable.SetBound_Disp (v : CMeshBoundVariable)
    (iPoint iDim : Nat) (val_BoundDisp : su2double) : CMeshBoundVariable :=
  match v.VertexMap.GetVertexIndex iPoint with
  | none => v
  | some idx =>
    { v with Boundary_Displacement :=
        v.Boundary_Displacement.set idx iDim val_BoundDisp }

/-- `Initialize_ModeshapeMatrix(val_nMode)` (header lines 101-114): stores the
mode count, reads the compacted point count back from
`Boundary_ModeShape.length()`, and resizes both mode-shape tensors to
`(nBoundPt, nMode, nDim)` filled with `0.0`.  The `cout` logging lines are
I/O only and carry no state. -/
def CMeshBoundVariable.Initialize_ModeshapeMatrix (v : CMeshBoundVariable)
    (val_nMode : Nat) : CMeshBoundVariable :=
  let nMode := val_nMode
  let nBoundPt := v.Boundary_ModeShape.length
  { v with
    nMode := nMode
    Boundary_ModeShape :=
      v.Boundary_ModeShape.resize nBoundPt nMode v.nDim su2double.zero
    Boundary_ModeShape_TWM :=
      v.Boundary_ModeShape_TWM.resize nBoundPt nMode v.nDim su2double.zero }

/-- `SetBound_ModeShape(iPoint, iMode, iDim, val_BoundModeShape)` (header
lines 120-123): writes the standard-basis mode-shape tensor. -/
def CMeshBoundVariable.SetBound_ModeShape (v : CMeshBoundVariable)
    (iPoint iMode iDim : Nat) (val_BoundModeShape : su2double) :
    CMeshBoundVariable :=
  match v.VertexMap.GetVertexIndex iPoint with
  | none => v
  | some idx =>
    { v with Boundary_ModeShape :=
        v.Boundary_ModeShape.set idx iMode iDim val_BoundModeShape }

/-- The second `SetBound_ModeShape` overload (header lines 129-132), which
writes the travelling-wave tensor `Boundary_ModeShape_TWM`.  Per spec section
9 the two overloads are treated as two intentionally distinct operations; the
Lean name distinguishes them. -/
def CMeshBoundVariable.SetBound_ModeShape_TWM (v : CMeshBoundVariable)
    (iPoint iMode iDim : Nat) (val_BoundModeShape_TWM : su2double) :
    CMeshBoundVariable :=
  match v.VertexMap.GetVertexIndex iPoint with
  | none => v
  | some idx =>
    { v with Boundary_ModeShape_TWM :=
        v.Boundary_ModeShape_TWM.set idx iMode iDim val_BoundModeShape_TWM }

/-- `SetBound_BladeID(iPoint, val_BladeID)` (header lines 138-141). -/
def CMeshBoundVariable.SetBound_BladeID (v : CMeshBoundVariable)
    (iPoint val_BladeID : Nat) : CMeshBoundVariable :=
  match v.VertexMap.GetVertexIndex iPoint with
  | none => v
  | some idx =>
    { v with Boundary_BladeID :=
      { v.Boundary_BladeID with data := fun i =>
          if i = idx then val_BladeID else v.Boundary_BladeID.data i } }

/-- `GetBound_ModeShape` (header lines 147-150). -/
def CMeshBoundVariable.GetBound_ModeShape (v : CMeshBoundVariable)
    (iPoint iMode iDim : Nat) : su2double :=
  match v.VertexMap.GetVertexIndex iPoint with
  | none => su2double.zero
  | some idx => v.Boundary_ModeShape.get idx iMode iDim

/-- `GetBound_ModeShape_TWM` (header lines 152-155). -/
def CMeshBoundVariable.GetBound_ModeShape_TWM (v : CMeshBoundVariable)
    (iPoint iMode iDim : Nat) : su2double :=
  match v.VertexMap.GetVertexIndex iPoint with
  | none => su2double.zero
  | some idx => v.Boundary_ModeShape_TWM.get idx iMode iDim

/-- `GetBound_BladeID` (header lines 161-164): the stored `unsigned short` is
returned as `su2double`. -/
def CMeshBoundVariable.GetBound_BladeID (v : CMeshBoundVariable)
    (iPoint : Nat) : su2double :=
  match v.VertexMap.GetVertexIndex iPoint with
  | none => su2double.zero
  | some idx => su2double.ofNat (v.Boundary_BladeID.data idx)

/-- `GetBound_Vel` (header lines 170-173). -/
def CMeshBoundVariable.GetBound_Vel (v : CMeshBoundVariable)
    (iPoint iDim : Nat) : su2double :=
  match v.VertexMap.GetVertexIndex iPoint with
  | none => su2double.zero
  | some idx => v.Boundary_Velocity.get idx iDim

/-- `SetBound_Vel(iPoint, val_BoundVel*)` (header lines 179-182), the pointer
overload, written as the pointwise result of its `for iDim < nDim` loop. -/
def CMeshBoundVariable.SetBound_Vel_vec (v : CMeshBoundVariable)
    (iPoint : Nat) (val_BoundVel : List su2double) : CMeshBoundVariable :=
  match v.VertexMap.GetVertexIndex iPoint with
  | none => v
  | some idx =>
    { v with Boundary_Velocity :=
      { v.Boundary_Velocity with data := fun i j =>
          if i = idx ∧ j < v.nDim then val_BoundVel.getD j su2double.zero
          else v.Boundary_Velocity.data i j } }

/-- `SetBound_Vel(iPoint, iDim, val_BoundVel)` (header lines 189-192), the
single-entry overload. -/
def CMeshBoundVariable.SetBound_Vel (v : CMeshBoundVariable)
    (iPoint iDim : Nat) (val_BoundVel : su2double) : CMeshBoundVariable :=
  match v.VertexMap.GetVertexIndex iPoint with
  | none => v
  | some idx =>
    { v with Boundary_Velocity :=
        v.Boundary_Velocity.set idx iDim val_BoundVel }

/-- `GetAdjoint_BoundDisp(iPoint, adj_disp*)` (header lines 202-207): if the
point resolves, entries `0..nVar-1` of the caller-supplied buffer receive the
accumulated derivative of the stored displacement; otherwise the buffer is
returned untouched.  The buffer is modelled as a function and the updated
buffer is the result. -/
def CMeshBoundVariable.GetAdjoint_BoundDisp (v : CMeshBoundVariable)
    (iPoint : Nat) (adj_disp : Nat → ℚ) : Nat → ℚ :=
  match v.VertexMap.GetVertexIndex iPoint with
  | none => adj_disp
  | some idx => fun iVar =>
      if iVar < v.nVar then
        SU2_TYPE.GetDerivative (v.Boundary_Displacement.get idx iVar)
      else adj_disp iVar

/-- `Get_isVertex` (header lines 212-214). -/
def CMeshBoundVariable.Get_isVertex (v : CMeshBoundVariable) (iPoint : Nat) :
    Bool :=
  v.VertexMap.GetIsVertex iPoint

/-- `Set_isVertex` (header lines 219-221). -/
def CMeshBoundVariable.Set_isVertex (v : CMeshBoundVariable) (iPoint : Nat)
    (isVertex : Bool) : CMeshBoundVariable :=
  { v with VertexMap := v.VertexMap.SetIsVertex iPoint isVertex }

/-- One state-mutating call on a `CMeshBoundVariable`, used to reason about
arbitrary call orders. -/
inductive MeshOp where
  | setIsVertex (p : Nat) (b : Bool)
  | allocate
  | initModeshape (m : Nat)
  | setDisp (p i : Nat) (x : su2double)
  | setDispVec (p : Nat) (vals : List su2double)
  | setVel (p i : Nat) (x : su2double)
  | setVelVec (p : Nat) (vals : List su2double)
  | setModeShape (p k d : Nat) (x : su2double)
  | setModeShapeTWM (p k d : Nat) (x : su2double)
  | setBladeID (p id : Nat)
deriving DecidableEq

/-- Apply one call to the state. -/
def execOp (v : CMeshBoundVariable) : MeshOp → CMeshBoundVariable
  | .setIsVertex p b => v.Set_isVertex p b
  | .allocate => v.AllocateBoundaryVariables
  | .initModeshape m => v.Initialize_ModeshapeMatrix m
  | .setDisp p i x => v.SetBound_Disp p i x
  | .setDispVec p vals => v.SetBound_Disp_vec p vals
  | .setVel p i x => v.SetBound_Vel p i x
  | .setVelVec p vals => v.SetBound_Vel_vec p vals
  | .setModeShape p k d x => v.SetBound_ModeShape p k d x
  | .setModeShapeTWM p k d x => v.SetBound_ModeShape_TWM p k d x
  | .setBladeID p id => v.SetBound_BladeID p id

/-- Apply a sequence of calls, in order. -/
def execTrace (v : CMeshBoundVariable) (ops : List MeshOp) :
    CMeshBoundVariable :=
  ops.foldl execOp v

/-- Flag a list of points as boundary vertices, in order. -/
def applyFlags (vm : CVertexMap) (ps : List Nat) : CVertexMap :=
  ps.foldl (fun m p => m.SetIsVertex p true) vm

end SU2

namespace SU2

/-! ### Helper lemmas -/

theorem GetVertexIndex_eq_none {vm : CVertexMap} {p : Nat}
    (h : vm.flag p = false) : vm.GetVertexIndex p = none := by
  simp [CVertexMap.GetVertexIndex, h]

theorem GetVertexIndex_eq_some {vm : CVertexMap} {p : Nat}
    (h : vm.flag p = true) :
    vm.GetVertexIndex p = some (vm.vertexIndex p) := by
  simp [CVertexMap.GetVertexIndex, h]

theorem SetIsVertex_nPoint (vm : CVertexMap) (p : Nat) (b : Bool) :
    (vm.SetIsVertex p b).nPoint = vm.nPoint := by
  unfold CVertexMap.SetIsVertex
  split <;> rfl

theorem SetIsVertex_flag (vm : CVertexMap) (p : Nat) (b : Bool) (q : Nat) :
    (vm.SetIsVertex p b).flag q =
      if q = p ∧ p < vm.nPoint then b else vm.flag q := by
  unfold CVertexMap.SetIsVertex
  by_cases hp : p < vm.nPoint <;> by_cases hq : q = p <;> simp [hp, hq]

theorem VertexMap_SetBound_Disp (v : CMeshBoundVariable) (p i : Nat)
    (x : su2double) : (v.SetBound_Disp p i x).VertexMap = v.VertexMap := by
  unfold CMeshBoundVariable.SetBound_Disp
  split <;> rfl

theorem VertexMap_SetBound_Disp_vec (v : CMeshBoundVariable) (p : Nat)
    (vals : List su2double) :
    (v.SetBound_Disp_vec p vals).VertexMap = v.VertexMap := by
  unfold CMeshBoundVariable.SetBound_Disp_vec
  split <;> rfl

theorem VertexMap_SetBound_Vel (v : CMeshBoundVariable) (p i : Nat)
    (x : su2double) : (v.SetBound_Vel p i x).VertexMap = v.VertexMap := by
  unfold CMeshBoundVariable.SetBound_Vel
  split <;> rfl

theorem VertexMap_SetBound_Vel_vec (v : CMeshBoundVariable) (p : Nat)
    (vals : List su2double) :
    (v.SetBound_Vel_vec p vals).VertexMap = v.VertexMap := by
  unfold CMeshBoundVariable.SetBound_Vel_vec
  split <;> rfl

theorem VertexMap_SetBound_ModeShape (v : CMeshBoundVariable) (p k d : Nat)
    (x : su2double) :
    (v.SetBound_ModeShape p k d x).VertexMap = v.VertexMap := by
  unfold CMeshBoundVariable.SetBound_ModeShape
  split <;> rfl

theorem VertexMap_SetBound_ModeShape_TWM (v : CMeshBoundVariable)
    (p k d : Nat) (x : su2double) :
    (v.SetBound_ModeShape_TWM p k d x).VertexMap = v.VertexMap := by
  unfold CMeshBoundVariable.SetBound_ModeShape_TWM
  split <;> rfl

theorem VertexMap_SetBound_BladeID (v : CMeshBoundVariable) (p id : Nat) :
    (v.SetBound_BladeID p id).VertexMap = v.VertexMap := by
  unfold CMeshBoundVariable.SetBound_BladeID
  split <;> rfl

theorem VertexMap_AllocateBoundaryVariables (v : CMeshBoundVariable) :
    v.AllocateBoundaryVariables.VertexMap = v.VertexMap := rfl

theorem VertexMap_Initialize_ModeshapeMatrix (v : CMeshBoundVariable)
    (m : Nat) : (v.Initialize_ModeshapeMatrix m).VertexMap = v.VertexMap :=
  rfl

theorem execOp_flag_false {v : CMeshBoundVariable} {p : Nat}
    (hv : v.VertexMap.flag p = false) (op : MeshOp)
    (hop : op ≠ MeshOp.setIsVertex p true) :
    ((execOp v op).VertexMap.flag p = false) := by
  cases op with
  | setIsVertex q b =>
    show ((v.Set_isVertex q b).VertexMap.flag p = false)
    unfold CMeshBoundVariable.Set_isVertex
    rw [SetIsVertex_flag]
    split
    case isTrue h =>
      rcases h with ⟨hq, _⟩
      subst hq
      cases b with
      | false => rfl
      | true => exact absurd rfl hop
    case isFalse h => exact hv
  | allocate => rw [show (execOp v .allocate) = v.AllocateBoundaryVariables from rfl, VertexMap_AllocateBoundaryVariables]; exact hv
  | initModeshape m => rw [show (execOp v (.initModeshape m)) = v.Initialize_ModeshapeMatrix m from rfl, VertexMap_Initialize_ModeshapeMatrix]; exact hv
  | setDisp q i x => rw [show (execOp v (.setDisp q i x)) = v.SetBound_Disp q i x from rfl, VertexMap_SetBound_Disp]; exact hv
  | setDispVec q vals => rw [show (execOp v (.setDispVec q vals)) = v.SetBound_Disp_vec q vals from rfl, VertexMap_SetBound_Disp_vec]; exact hv
  | setVel q i x => rw [show (execOp v (.setVel q i x)) = v.SetBound_Vel q i x from rfl, VertexMap_SetBound_Vel]; exact hv
  | setVelVec q vals => rw [show (execOp v (.setVelVec q vals)) = v.SetBound_Vel_vec q vals from rfl, VertexMap_SetBound_Vel_vec]; exact hv
  | setModeShape q k d x => rw [show (execOp v (.setModeShape q k d x)) = v.SetBound_ModeShape q k d x from rfl, VertexMap_SetBound_ModeShape]; exact hv
  | setModeShapeTWM q k d x => rw [show (execOp v (.setModeShapeTWM q k d x)) = v.SetBound_ModeShape_TWM q k d x from rfl, VertexMap_SetBound_ModeShape_TWM]; exact hv
  | setBladeID q id => rw [show (execOp v (.setBladeID q id)) = v.SetBound_BladeID q id from rfl, VertexMap_SetBound_BladeID]; exact hv

theorem execTrace_flag_false {p : Nat} (ops : List MeshOp) :
    ∀ v : CMeshBoundVariable, v.VertexMap.flag p = false →
      (∀ op ∈ ops, op ≠ MeshOp.setIsVertex p true) →
      (execTrace v ops).VertexMap.flag p = false := by
  induction ops with
  | nil => intro v hv _; exact hv
  | cons op t ih =>
    intro v hv hops
    have h1 : (execOp v op).VertexMap.flag p = false :=
      execOp_flag_false hv op (hops op (List.mem_cons_self op t))
    exact ih (execOp v op) h1 (fun o ho => hops o (List.mem_cons_of_mem op ho))

theorem flaggedBelow_subset (vm : CVertexMap) {p q : Nat} (h : p ≤ q) :
    vm.flaggedBelow p ⊆ vm.flaggedBelow q :=
  Finset.filter_subset_filter _ (Finset.range_subset.mpr h)

theorem vertexIndex_lt_vertexIndex (vm : CVertexMap) {p q : Nat}
    (hpq : p < q) (hp : vm.flag p = true) :
    vm.vertexIndex p < vm.vertexIndex q := by
  apply Finset.card_lt_card
  rw [Finset.ssubset_iff_of_subset (flaggedBelow_subset vm (Nat.le_of_lt hpq))]
  refine ⟨p, ?_, ?_⟩
  · simp [CVertexMap.flaggedBelow, Finset.mem_filter, Finset.mem_range, hpq, hp]
  · simp [CVertexMap.flaggedBelow, Finset.mem_filter, Finset.mem_range]

theorem vertexIndex_injOn (vm : CVertexMap) {p q : Nat}
    (hp : vm.flag p = true) (hq : vm.flag q = true) (hne : p ≠ q) :
    vm.vertexIndex p ≠ vm.vertexIndex q := by
  rcases Nat.lt_or_ge p q with h | h
  · exact Nat.ne_of_lt (vertexIndex_lt_vertexIndex vm h hp)
  · rcases Nat.lt_or_ge q p with h2 | h2
    · exact Nat.ne_of_gt (vertexIndex_lt_vertexIndex vm h2 hq)
    · exact absurd (Nat.le_antisymm h2 h) hne

theorem vertexIndex_lt_Build (vm : CVertexMap) {p : Nat}
    (hlt : p < vm.nPoint) (hp : vm.flag p = true) :
    vm.vertexIndex p < vm.Build :=
  vertexIndex_lt_vertexIndex vm hlt hp

theorem vertexIndex_surj (vm : CVertexMap) {i : Nat} (hi : i < vm.Build) :
    ∃ p, p < vm.nPoint ∧ vm.flag p = true ∧ vm.vertexIndex p = i := by
  have hinj : Set.InjOn vm.vertexIndex (vm.flaggedBelow vm.nPoint) := by
    intro a ha b hb hab
    by_contra hne
    rcases Finset.mem_filter.mp ha with ⟨_, hfa⟩
    rcases Finset.mem_filter.mp hb with ⟨_, hfb⟩
    exact vertexIndex_injOn vm hfa hfb hne hab
  have hsub : (vm.flaggedBelow vm.nPoint).image vm.vertexIndex ⊆
      Finset.range vm.Build := by
    intro j hj
    rcases Finset.mem_image.mp hj with ⟨p, hp, hpe⟩
    rcases Finset.mem_filter.mp hp with ⟨hpr, hpf⟩
    rw [Finset.mem_range] at hpr ⊢
    rw [← hpe]
    exact vertexIndex_lt_Build vm hpr hpf
  have hcard : (Finset.range vm.Build).card ≤
      ((vm.flaggedBelow vm.nPoint).image vm.vertexIndex).card := by
    rw [Finset.card_range, Finset.card_image_of_injOn hinj]
    exact Nat.le_refl _
  have heq := Finset.eq_of_subset_of_card_le hsub hcard
  have hmem : i ∈ (vm.flaggedBelow vm.nPoint).image vm.vertexIndex := by
    rw [heq, Finset.mem_range]
    exact hi
  rcases Finset.mem_image.mp hmem with ⟨p, hp, hpe⟩
  rcases Finset.mem_filter.mp hp with ⟨hpr, hpf⟩
  exact ⟨p, Finset.mem_range.mp hpr, hpf, hpe⟩

theorem applyFlags_nPoint (ps : List Nat) :
    ∀ vm : CVertexMap, (applyFlags vm ps).nPoint = vm.nPoint := by
  induction ps with
  | nil => intro vm; rfl
  | cons p t ih =>
    intro vm
    show (applyFlags (vm.SetIsVertex p true) t).nPoint = vm.nPoint
    rw [ih, SetIsVertex_nPoint]

theorem applyFlags_flag (ps : List Nat) :
    ∀ (vm : CVertexMap) (q : Nat),
      (applyFlags vm ps).flag q =
        (vm.flag q || (decide (q ∈ ps) && decide (q < vm.nPoint))) := by
  induction ps with
  | nil => intro vm q; simp [applyFlags]
  | cons p t ih =>
    intro vm q
    show (applyFlags (vm.SetIsVertex p true) t).flag q = _
    rw [ih, SetIsVertex_flag, SetIsVertex_nPoint]
    by_cases hq : q = p
    · subst hq
      by_cases hlt : q < vm.nPoint <;> simp [hlt, List.mem_cons]
    · by_cases hm : q ∈ t <;> simp [hq, hm, List.mem_cons]

theorem applyFlags_perm_eq (vm : CVertexMap) {ps1 ps2 : List Nat}
    (h : ps1.Perm ps2) : applyFlags vm ps1 = applyFlags vm ps2 := by
  refine CVertexMap.ext ?_ ?_
  · rw [applyFlags_nPoint, applyFlags_nPoint]
  · funext q
    rw [applyFlags_flag, applyFlags_flag,
      decide_eq_decide.mpr (h.mem_iff (a := q))]

theorem modeshape_set_other (vm : CVertexMap) (M : C3DDoubleMatrix)
    (p k d : Nat) (x : su2double) (p' k' d' : Nat)
    (hne : (p', k', d') ≠ (p, k, d)) (hfp : vm.flag p = true)
    (hfp' : vm.flag p' = true) :
    (M.set (vm.vertexIndex p) k d x).get (vm.vertexIndex p') k' d' =
      M.get (vm.vertexIndex p') k' d' := by
  unfold C3DDoubleMatrix.set C3DDoubleMatrix.get
  have hcond : ¬(vm.vertexIndex p' = vm.vertexIndex p ∧ k' = k ∧ d' = d) := by
    rintro ⟨h1, h2, h3⟩
    by_cases hpp : p' = p
    · exact hne (by rw [hpp, h2, h3])
    · exact vertexIndex_injOn vm hfp' hfp hpp h1
  simp only [hcond, if_false]

/-! ### Claim theorems -/

/-- C1: for every point never flagged as a boundary vertex via
`Set_isVertex`, every getter (`GetBound_Disp`, `GetBound_Vel`,
`GetBound_ModeShape`, `GetBound_ModeShape_TWM`, `GetBound_BladeID`) returns
the zero value, and every setter (`SetBound_Disp`, `SetBound_Vel`,
`SetBound_ModeShape`, `SetBound_ModeShape_TWM`, `SetBound_BladeID`, in both
overload forms) leaves the whole state unchanged, regardless of the order of
the preceding calls. -/
theorem c1_unflagged_points_neutral (npoint ndim : Nat) (ops : List MeshOp)
    (p : Nat) (hp : ∀ op ∈ ops, op ≠ MeshOp.setIsVertex p true)
    (v : CMeshBoundVariable)
    (hv : v = execTrace (CMeshBoundVariable.construct npoint ndim) ops) :
    (∀ i, v.GetBound_Disp p i = su2double.zero) ∧
    (∀ i, v.GetBound_Vel p i = su2double.zero) ∧
    (∀ k d, v.GetBound_ModeShape p k d = su2double.zero) ∧
    (∀ k d, v.GetBound_ModeShape_TWM p k d = su2double.zero) ∧
    (v.GetBound_BladeID p = su2double.zero) ∧
    (∀ i x, v.SetBound_Disp p i x = v) ∧
    (∀ vals, v.SetBound_Disp_vec p vals = v) ∧
    (∀ i x, v.SetBound_Vel p i x = v) ∧
    (∀ vals, v.SetBound_Vel_vec p vals = v) ∧
    (∀ k d x, v.SetBound_ModeShape p k d x = v) ∧
    (∀ k d x, v.SetBound_ModeShape_TWM p k d x = v) ∧
    (∀ id, v.SetBound_BladeID p id = v) := by
  have hflag : v.VertexMap.flag p = false := by
    rw [hv]
    exact execTrace_flag_false ops _ rfl hp
  have hnone := GetVertexIndex_eq_none hflag
  refine ⟨?_, ?_, ?_, ?_, ?_, ?_, ?_, ?_, ?_, ?_, ?_, ?_⟩
  · intro i; simp [CMeshBoundVariable.GetBound_Disp, hnone]
  · intro i; simp [CMeshBoundVariable.GetBound_Vel, hnone]
  · intro k d; simp [CMeshBoundVariable.GetBound_ModeShape, hnone]
  · intro k d; simp [CMeshBoundVariable.GetBound_ModeShape_TWM, hnone]
  · simp [CMeshBoundVariable.GetBound_BladeID, hnone]
  · intro i x; simp [CMeshBoundVariable.SetBound_Disp, hnone]
  · intro vals; simp [CMeshBoundVariable.SetBound_Disp_vec, hnone]
  · intro i x; simp [CMeshBoundVariable.SetBound_Vel, hnone]
  · intro vals; simp [CMeshBoundVariable.SetBound_Vel_vec, hnone]
  · intro k d x; simp [CMeshBoundVariable.SetBound_ModeShape, hnone]
  · intro k d x; simp [CMeshBoundVariable.SetBound_ModeShape_TWM, hnone]
  · intro id; simp [CMeshBoundVariable.SetBound_BladeID, hnone]

/-- Witness for C1 at a concrete trace and point. -/
theorem c1_witness :
    (execTrace (CMeshBoundVariable.construct 4 2)
        [MeshOp.setIsVertex 1 true]).GetBound_Disp 3 0 = su2double.zero :=
  (c1_unflagged_points_neutral 4 2 [MeshOp.setIsVertex 1 true] 3 (by decide)
    _ rfl).1 0

/-- A concrete state shared by several witnesses: 5 points, 2 dimensions,
points 1 and 3 flagged as boundary vertices. -/
def sampleState : CMeshBoundVariable :=
  ((CMeshBoundVariable.construct 5 2).Set_isVertex 1 true).Set_isVertex 3 true

/-- C2: calling `Initialize_ModeshapeMatrix m` after index compaction
(`AllocateBoundaryVariables`) sizes both mode-shape tensors to
`(nBoundaryVertices, m, nDim)`, zero-filled, so that immediately afterwards
both mode-shape getters return zero at every boundary vertex, mode below `m`
and dimension below `nDim`. -/
theorem c2_initialize_modeshape (v : CMeshBoundVariable) (m p k d : Nat)
    (hp : v.VertexMap.flag p = true) (_hk : k < m) (_hd : d < v.nDim) :
    ((v.AllocateBoundaryVariables.Initialize_ModeshapeMatrix
        m).Boundary_ModeShape.length = v.VertexMap.Build) ∧
    ((v.AllocateBoundaryVariables.Initialize_ModeshapeMatrix
        m).Boundary_ModeShape.rows = m) ∧
    ((v.AllocateBoundaryVariables.Initialize_ModeshapeMatrix
        m).Boundary_ModeShape.cols = v.nDim) ∧
    ((v.AllocateBoundaryVariables.Initialize_ModeshapeMatrix
        m).Boundary_ModeShape_TWM.length = v.VertexMap.Build) ∧
    ((v.AllocateBoundaryVariables.Initialize_ModeshapeMatrix
        m).Boundary_ModeShape_TWM.rows = m) ∧
    ((v.AllocateBoundaryVariables.Initialize_ModeshapeMatrix
        m).Boundary_ModeShape_TWM.cols = v.nDim) ∧
    ((v.AllocateBoundaryVariables.Initialize_ModeshapeMatrix
        m).GetBound_ModeShape p k d = su2double.zero) ∧
    ((v.AllocateBoundaryVariables.Initialize_ModeshapeMatrix
        m).GetBound_ModeShape_TWM p k d = su2double.zero) := by
  have hsome := GetVertexIndex_eq_some hp
  refine ⟨rfl, rfl, rfl, rfl, rfl, rfl, ?_, ?_⟩
  · simp [CMeshBoundVariable.GetBound_ModeShape,
      CMeshBoundVariable.Initialize_ModeshapeMatrix,
      CMeshBoundVariable.AllocateBoundaryVariables, hsome,
      C3DDoubleMatrix.resize, C3DDoubleMatrix.get]
  · simp [CMeshBoundVariable.GetBound_ModeShape_TWM,
      CMeshBoundVariable.Initialize_ModeshapeMatrix,
      CMeshBoundVariable.AllocateBoundaryVariables, hsome,
      C3DDoubleMatrix.resize, C3DDoubleMatrix.get]

/-- Witness for C2 at a concrete state. -/
theorem c2_witness :
    (sampleState.AllocateBoundaryVariables.Initialize_ModeshapeMatrix
        2).Boundary_ModeShape.length = sampleState.VertexMap.Build ∧
    (sampleState.AllocateBoundaryVariables.Initialize_ModeshapeMatrix
        2).GetBound_ModeShape 3 1 0 = su2double.zero :=
  ⟨(c2_initialize_modeshape sampleState 2 3 1 0 (by decide) (by decide)
      (by decide)).1,
   (c2_initialize_modeshape sampleState 2 3 1 0 (by decide) (by decide)
      (by decide)).2.2.2.2.2.2.1⟩

/-- C3: `Build` assigns compact indices `0..k-1` to exactly the points
currently flagged true, in ascending order of point identifier, and the
assignment depends only on which points are flagged, not on the order in
which they were flagged; in particular flagging the points 5, 2, 9 of a
10-point mesh in any order yields index 0 for point 2, 1 for point 5 and 2
for point 9. -/
theorem c3_build_compaction :
    (∀ (vm : CVertexMap) (ps1 ps2 : List Nat), ps1.Perm ps2 →
        applyFlags vm ps1 = applyFlags vm ps2) ∧
    (∀ (vm : CVertexMap) (p : Nat),
        (∃ i, vm.GetVertexIndex p = some i) ↔ vm.flag p = true) ∧
    (∀ (vm : CVertexMap) (p q : Nat), p < q → vm.flag p = true →
        vm.flag q = true → vm.vertexIndex p < vm.vertexIndex q) ∧
    (∀ (vm : CVertexMap) (p : Nat), p < vm.nPoint → vm.flag p = true →
        vm.vertexIndex p < vm.Build) ∧
    (∀ (vm : CVertexMap) (i : Nat), i < vm.Build →
        ∃ p, p < vm.nPoint ∧ vm.flag p = true ∧ vm.vertexIndex p = i) ∧
    (∀ ps : List Nat, ps.Perm [5, 2, 9] →
        (applyFlags (CVertexMap.reset 10) ps).GetVertexIndex 2 = some 0 ∧
        (applyFlags (CVertexMap.reset 10) ps).GetVertexIndex 5 = some 1 ∧
        (applyFlags (CVertexMap.reset 10) ps).GetVertexIndex 9 = some 2 ∧
        (applyFlags (CVertexMap.reset 10) ps).Build = 3) := by
  refine ⟨fun vm ps1 ps2 h => applyFlags_perm_eq vm h, ?_, ?_, ?_, ?_, ?_⟩
  · intro vm p
    constructor
    · rintro ⟨i, hi⟩
      by_cases h : vm.flag p = true
      · exact h
      · rw [GetVertexIndex_eq_none (Bool.eq_false_iff.mpr h)] at hi
        exact absurd hi (Option.some_ne_none i).symm
    · intro h
      exact ⟨vm.vertexIndex p, GetVertexIndex_eq_some h⟩
  · exact fun vm p q h hp hq => vertexIndex_lt_vertexIndex vm h hp
  · exact fun vm p h hp => vertexIndex_lt_Build vm h hp
  · exact fun vm i hi => vertexIndex_surj vm hi
  · intro ps hperm
    rw [applyFlags_perm_eq (CVertexMap.reset 10) hperm]
    refine ⟨?_, ?_, ?_, ?_⟩ <;> decide

/-- Witness for C3 at a concrete flagging order. -/
theorem c3_witness :
    (applyFlags (CVertexMap.reset 10) [9, 2, 5]).GetVertexIndex 2 = some 0 ∧
    (applyFlags (CVertexMap.reset 10) [9, 2, 5]).GetVertexIndex 5 = some 1 ∧
    (applyFlags (CVertexMap.reset 10) [9, 2, 5]).GetVertexIndex 9 = some 2 ∧
    (applyFlags (CVertexMap.reset 10) [9, 2, 5]).Build = 3 :=
  c3_build_compaction.2.2.2.2.2 [9, 2, 5] (by decide)

/-- C4: round-trip for displacement: for a boundary vertex `p`, after the
vector-form `SetBound_Disp(p, vals)` with `vals` of length `nDim`,
`GetBound_Disp(p, i)` returns `vals[i]` for every dimension `i < nDim`. -/
theorem c4_disp_roundtrip (v : CMeshBoundVariable) (p : Nat)
    (vals : List su2double) (i : Nat) (hp : v.VertexMap.flag p = true)
    (_hlen : vals.length = v.nDim) (hi : i < v.nDim) :
    (v.SetBound_Disp_vec p vals).GetBound_Disp p i =
      vals.getD i su2double.zero := by
  have hsome := GetVertexIndex_eq_some hp
  simp [CMeshBoundVariable.SetBound_Disp_vec, CMeshBoundVariable.GetBound_Disp,
    hsome, MatrixType.get, hi]

/-- Witness for C4 at a concrete state and vector. -/
theorem c4_witness :
    (sampleState.SetBound_Disp_vec 3
        [su2double.mk 1 0, su2double.mk 2 0]).GetBound_Disp 3 1 =
      [su2double.mk 1 0, su2double.mk 2 0].getD 1 su2double.zero :=
  c4_disp_roundtrip sampleState 3 [su2double.mk 1 0, su2double.mk 2 0] 1
    (by decide) (by decide) (by decide)

/-- C5: for a boundary vertex `p` (with the inherited `nVar = nDim`),
`GetAdjoint_BoundDisp(p, buf)` writes exactly one entry per dimension into
the caller-supplied buffer, entry `i` being the accumulated derivative of the
stored displacement of `p` in dimension `i`; entries at or beyond `nDim` keep
their previous contents. -/
theorem c5_adjoint_recover (v : CMeshBoundVariable) (p : Nat)
    (buf : Nat → ℚ) (hvar : v.nVar = v.nDim)
    (hp : v.VertexMap.flag p = true) :
    (∀ i, i < v.nDim →
        v.GetAdjoint_BoundDisp p buf i =
          SU2_TYPE.GetDerivative (v.GetBound_Disp p i)) ∧
    (∀ i, v.nDim ≤ i → v.GetAdjoint_BoundDisp p buf i = buf i) := by
  have hsome := GetVertexIndex_eq_some hp
  constructor
  · intro i hi
    simp [CMeshBoundVariable.GetAdjoint_BoundDisp,
      CMeshBoundVariable.GetBound_Disp, hsome, hvar, hi]
  · intro i hi
    simp [CMeshBoundVariable.GetAdjoint_BoundDisp, hsome, hvar,
      Nat.not_lt.mpr hi]

/-- Witness for C5 at a concrete state and buffer. -/
theorem c5_witness :
    sampleState.GetAdjoint_BoundDisp 3 (fun _ => 7) 0 =
      SU2_TYPE.GetDerivative (sampleState.GetBound_Disp 3 0) :=
  (c5_adjoint_recover sampleState 3 (fun _ => 7) rfl (by decide)).1 0
    (by decide)

/-- C6: for a point that is not a boundary vertex, `GetAdjoint_BoundDisp`
returns the caller-supplied buffer completely untouched. -/
theorem c6_adjoint_nonvertex_untouched (v : CMeshBoundVariable) (p : Nat)
    (buf : Nat → ℚ) (hp : v.VertexMap.flag p = false) :
    v.GetAdjoint_BoundDisp p buf = buf := by
  simp [CMeshBoundVariable.GetAdjoint_BoundDisp, GetVertexIndex_eq_none hp]

/-- Witness for C6 at a concrete state and buffer. -/
theorem c6_witness :
    sampleState.GetAdjoint_BoundDisp 2 (fun _ => 7) = (fun _ => 7) :=
  c6_adjoint_nonvertex_untouched sampleState 2 (fun _ => 7) (by decide)

/-- C7: displacement and velocity storage are independent: the single-entry
displacement setter leaves every velocity reading unchanged, and the
single-entry velocity setter leaves every displacement reading unchanged, for
all points and dimensions. -/
theorem c7_disp_vel_independent (v : CMeshBoundVariable) (p i : Nat)
    (x : su2double) (p' i' : Nat) :
    (v.SetBound_Disp p i x).GetBound_Vel p' i' = v.GetBound_Vel p' i' ∧
    (v.SetBound_Vel p i x).GetBound_Disp p' i' = v.GetBound_Disp p' i' := by
  constructor
  · rcases h : v.VertexMap.GetVertexIndex p with _ | idx <;>
      simp [CMeshBoundVariable.SetBound_Disp, CMeshBoundVariable.GetBound_Vel,
        h]
  · rcases h : v.VertexMap.GetVertexIndex p with _ | idx <;>
      simp [CMeshBoundVariable.SetBound_Vel, CMeshBoundVariable.GetBound_Disp,
        h]

/-- C8: the standard and travelling-wave mode-shape tensors are separate
storage with single-entry set locality: each setter changes no entry of the
other tensor, and changes no entry of its own tensor other than the one
written. -/
theorem c8_modeshape_locality :
    (∀ (v : CMeshBoundVariable) (p k d : Nat) (x : su2double) (p' k' d' : Nat),
        (v.SetBound_ModeShape p k d x).GetBound_ModeShape_TWM p' k' d' =
          v.GetBound_ModeShape_TWM p' k' d') ∧
    (∀ (v : CMeshBoundVariable) (p k d : Nat) (x : su2double) (p' k' d' : Nat),
        (v.SetBound_ModeShape_TWM p k d x).GetBound_ModeShape p' k' d' =
          v.GetBound_ModeShape p' k' d') ∧
    (∀ (v : CMeshBoundVariable) (p k d : Nat) (x : su2double) (p' k' d' : Nat),
        (p', k', d') ≠ (p, k, d) →
        (v.SetBound_ModeShape p k d x).GetBound_ModeShape p' k' d' =
          v.GetBound_ModeShape p' k' d') ∧
    (∀ (v : CMeshBoundVariable) (p k d : Nat) (x : su2double) (p' k' d' : Nat),
        (p', k', d') ≠ (p, k, d) →
        (v.SetBound_ModeShape_TWM p k d x).GetBound_ModeShape_TWM p' k' d' =
          v.GetBound_ModeShape_TWM p' k' d') := by
  refine ⟨?_, ?_, ?_, ?_⟩
  · intro v p k d x p' k' d'
    rcases h : v.VertexMap.GetVertexIndex p with _ | idx <;>
      simp [CMeshBoundVariable.SetBound_ModeShape,
        CMeshBoundVariable.GetBound_ModeShape_TWM, h]
  · intro v p k d x p' k' d'
    rcases h : v.VertexMap.GetVertexIndex p with _ | idx <;>
      simp [CMeshBoundVariable.SetBound_ModeShape_TWM,
        CMeshBoundVariable.GetBound_ModeShape, h]
  · intro v p k d x p' k' d' hne
    by_cases hfp : v.VertexMap.flag p = true
    · have hsome := GetVertexIndex_eq_some hfp
      by_cases hfp' : v.VertexMap.flag p' = true
      · have hsome' := GetVertexIndex_eq_some hfp'
        simp only [CMeshBoundVariable.SetBound_ModeShape,
          CMeshBoundVariable.GetBound_ModeShape, hsome, hsome']
        exact modeshape_set_other v.VertexMap v.Boundary_ModeShape p k d x
          p' k' d' hne hfp hfp'
      · have hnone' := GetVertexIndex_eq_none (Bool.eq_false_iff.mpr hfp')
        simp [CMeshBoundVariable.SetBound_ModeShape,
          CMeshBoundVariable.GetBound_ModeShape, hsome, hnone']
    · have hnone := GetVertexIndex_eq_none (Bool.eq_false_iff.mpr hfp)
      simp [CMeshBoundVariable.SetBound_ModeShape, hnone]
  · intro v p k d x p' k' d' hne
    by_cases hfp : v.VertexMap.flag p = true
    · have hsome := GetVertexIndex_eq_some hfp
      by_cases hfp' : v.VertexMap.flag p' = true
      · have hsome' := GetVertexIndex_eq_some hfp'
        simp only [CMeshBoundVariable.SetBound_ModeShape_TWM,
          CMeshBoundVariable.GetBound_ModeShape_TWM, hsome, hsome']
        exact modeshape_set_other v.VertexMap v.Boundary_ModeShape_TWM p k d x
          p' k' d' hne hfp hfp'
      · have hnone' := GetVertexIndex_eq_none (Bool.eq_false_iff.mpr hfp')
        simp [CMeshBoundVariable.SetBound_ModeShape_TWM,
          CMeshBoundVariable.GetBound_ModeShape_TWM, hsome, hnone']
    · have hnone := GetVertexIndex_eq_none (Bool.eq_false_iff.mpr hfp)
      simp [CMeshBoundVariable.SetBound_ModeShape_TWM, hnone]

/-- Witness for C8: the same-tensor locality conjunct at a concrete state,
with the written entry and the read entry different. -/
theorem c8_witness :
    ((sampleState.SetBound_ModeShape 1 1 0
        (su2double.mk 5 0)).GetBound_ModeShape 3 1 0 =
      sampleState.GetBound_ModeShape 3 1 0) :=
  c8_modeshape_locality.2.2.1 sampleState 1 1 0 (su2double.mk 5 0) 3 1 0
    (by decide)

/-- C9 counterexample: the claim that a second `Initialize_ModeshapeMatrix`
call with a different mode count "does not silently change nMode or the
tensor extents" is false: at a concrete state with two boundary vertices,
initializing with 2 modes and then with 3 modes changes `nMode` from 2 to 3
and the middle tensor extent from 2 to 3. -/
theorem c9_counterexample :
    (sampleState.AllocateBoundaryVariables.Initialize_ModeshapeMatrix
        2).nMode = 2 ∧
    (sampleState.AllocateBoundaryVariables.Initialize_ModeshapeMatrix
        2).Boundary_ModeShape.rows = 2 ∧
    ((sampleState.AllocateBoundaryVariables.Initialize_ModeshapeMatrix
        2).Initialize_ModeshapeMatrix 3).nMode = 3 ∧
    ((sampleState.AllocateBoundaryVariables.Initialize_ModeshapeMatrix
        2).Initialize_ModeshapeMatrix 3).Boundary_ModeShape.rows = 3 ∧
    ¬ ((sampleState.AllocateBoundaryVariables.Initialize_ModeshapeMatrix
        2).Initialize_ModeshapeMatrix 3).nMode = 2 :=
  ⟨rfl, rfl, rfl, rfl, by decide⟩

/-- C9 amended: `Initialize_ModeshapeMatrix` has no guard: every call
overwrites `nMode` with its argument and resizes both mode-shape tensors, so
after two calls the last mode count wins: `nMode` and the middle extent of
both tensors equal the second argument, the inner extent stays `nDim`, and
the first extent stays `Boundary_ModeShape.length()` (the compacted count
recorded at allocation time). -/
theorem c9_reinit_last_call_wins (v : CMeshBoundVariable) (m1 m2 : Nat) :
    ((v.Initialize_ModeshapeMatrix m1).Initialize_ModeshapeMatrix m2).nMode =
      m2 ∧
    ((v.Initialize_ModeshapeMatrix
        m1).Initialize_ModeshapeMatrix m2).Boundary_ModeShape.rows = m2 ∧
    ((v.Initialize_ModeshapeMatrix
        m1).Initialize_ModeshapeMatrix m2).Boundary_ModeShape.cols = v.nDim ∧
    ((v.Initialize_ModeshapeMatrix
        m1).Initialize_ModeshapeMatrix m2).Boundary_ModeShape.length =
      v.Boundary_ModeShape.length ∧
    ((v.Initialize_ModeshapeMatrix
        m1).Initialize_ModeshapeMatrix m2).Boundary_ModeShape_TWM.rows = m2 ∧
    ((v.Initialize_ModeshapeMatrix
        m1).Initialize_ModeshapeMatrix m2).Boundary_ModeShape_TWM.cols =
      v.nDim ∧
    ((v.Initialize_ModeshapeMatrix
        m1).Initialize_ModeshapeMatrix m2).Boundary_ModeShape_TWM.length =
      v.Boundary_ModeShape.length :=
  ⟨rfl, rfl, rfl, rfl, rfl, rfl, rfl⟩

/-- C10: boundary membership is preserved by every attribute setter (and the
getters and `GetAdjoint_BoundDisp` are const, embedded as pure functions):
each setter leaves the vertex map, hence `Get_isVertex` and the compact index
assignment, unchanged for every point. -/
theorem c10_membership_preserved (v : CMeshBoundVariable) (p i k d : Nat)
    (x : su2double) (vals : List su2double) (id q : Nat) :
    ((v.SetBound_Disp p i x).VertexMap = v.VertexMap ∧
      (v.SetBound_Disp p i x).Get_isVertex q = v.Get_isVertex q ∧
      (v.SetBound_Disp p i x).VertexMap.GetVertexIndex q =
        v.VertexMap.GetVertexIndex q) ∧
    ((v.SetBound_Disp_vec p vals).VertexMap = v.VertexMap ∧
      (v.SetBound_Disp_vec p vals).Get_isVertex q = v.Get_isVertex q ∧
      (v.SetBound_Disp_vec p vals).VertexMap.GetVertexIndex q =
        v.VertexMap.GetVertexIndex q) ∧
    ((v.SetBound_Vel p i x).VertexMap = v.VertexMap ∧
      (v.SetBound_Vel p i x).Get_isVertex q = v.Get_isVertex q ∧
      (v.SetBound_Vel p i x).VertexMap.GetVertexIndex q =
        v.VertexMap.GetVertexIndex q) ∧
    ((v.SetBound_Vel_vec p vals).VertexMap = v.VertexMap ∧
      (v.SetBound_Vel_vec p vals).Get_isVertex q = v.Get_isVertex q ∧
      (v.SetBound_Vel_vec p vals).VertexMap.GetVertexIndex q =
        v.VertexMap.GetVertexIndex q) ∧
    ((v.SetBound_ModeShape p k d x).VertexMap = v.VertexMap ∧
      (v.SetBound_ModeShape p k d x).Get_isVertex q = v.Get_isVertex q ∧
      (v.SetBound_ModeShape p k d x).VertexMap.GetVertexIndex q =
        v.VertexMap.GetVertexIndex q) ∧
    ((v.SetBound_ModeShape_TWM p k d x).VertexMap = v.VertexMap ∧
      (v.SetBound_ModeShape_TWM p k d x).Get_isVertex q = v.Get_isVertex q ∧
      (v.SetBound_ModeShape_TWM p k d x).VertexMap.GetVertexIndex q =
        v.VertexMap.GetVertexIndex q) ∧
    ((v.SetBound_BladeID p id).VertexMap = v.VertexMap ∧
      (v.SetBound_BladeID p id).Get_isVertex q = v.Get_isVertex q ∧
      (v.SetBound_BladeID p id).VertexMap.GetVertexIndex q =
        v.VertexMap.GetVertexIndex q) := by
  have h1 := VertexMap_SetBound_Disp v p i x
  have h2 := VertexMap_SetBound_Disp_vec v p vals
  have h3 := VertexMap_SetBound_Vel v p i x
  have h4 := VertexMap_SetBound_Vel_vec v p vals
  have h5 := VertexMap_SetBound_ModeShape v p k d x
  have h6 := VertexMap_SetBound_ModeShape_TWM v p k d x
  have h7 := VertexMap_SetBound_BladeID v p id
  exact ⟨⟨h1, by rw [CMeshBoundVariable.Get_isVertex,
        CMeshBoundVariable.Get_isVertex, h1], by rw [h1]⟩,
    ⟨h2, by rw [CMeshBoundVariable.Get_isVertex,
        CMeshBoundVariable.Get_isVertex, h2], by rw [h2]⟩,
    ⟨h3, by rw [CMeshBoundVariable.Get_isVertex,
        CMeshBoundVariable.Get_isVertex, h3], by rw [h3]⟩,
    ⟨h4, by rw [CMeshBoundVariable.Get_isVertex,
        CMeshBoundVariable.Get_isVertex, h4], by rw [h4]⟩,
    ⟨h5, by rw [CMeshBoundVariable.Get_isVertex,
        CMeshBoundVariable.Get_isVertex, h5], by rw [h5]⟩,
    ⟨h6, by rw [CMeshBoundVariable.Get_isVertex,
        CMeshBoundVariable.Get_isVertex, h6], by rw [h6]⟩,
    ⟨h7, by rw [CMeshBoundVariable.Get_isVertex,
        CMeshBoundVariable.Get_isVertex, h7], by rw [h7]⟩⟩

end SU2
